import Mathlib

/-!
# Verification of the launch / surface-bootstrap subsystem

Shallow embedding of `src/bridge/command.rs` and `src/renderer/opengl.rs`.

Environment effects (settings, environment variables, subprocess outcomes,
filesystem probes) are passed explicitly as parameters; a Rust panic is
modelled as `Option.none` (or a dedicated constructor), `std::process::exit`
as an explicit `exit` constructor.
-/

namespace Neovide

/-- Compilation target of the host, mirroring the `cfg!(target_os = ...)`
splits in `command.rs`. -/
inductive OS where
  | windows
  | macos
  | other
deriving DecidableEq, Repr

/-- Outcome of `Command::output()` for a spawned helper process:
`err` models `Err(_)` (the helper failed to run at all), `ok success stdout`
models `Ok(output)` with `output.status.success()` and `output.stdout`
(raw bytes, each reduced mod 256 since Rust's are `u8`). -/
inductive ProcOutcome where
  | err : ProcOutcome
  | ok (success : Bool) (stdout : List Nat) : ProcOutcome
deriving DecidableEq, Repr

/-- `child.stdout.chunks(2).map(|bytes| u16::from_ne_bytes([bytes[0], bytes[1]]))`
from `check_wsl_distro`.  `chunks(2)` leaves a final chunk of length 1 when the
byte count is odd, and `bytes[1]` then panics (index out of bounds): that case
is `none`.  Native endianness is modelled as little-endian. -/
def bytesToU16 : List Nat → Option (List Nat)
  | [] => some []
  | [_] => none
  | b0 :: b1 :: rest => (bytesToU16 rest).map (fun us => (b0 % 256 + 256 * (b1 % 256)) :: us)

/-- `String::from_utf16`: decodes UTF-16 code units, `none` on any unpaired
surrogate.  All code points produced are valid scalar values, so `Char.ofNat`
is exact here. -/
def decodeUtf16 : List Nat → Option (List Char)
  | [] => some []
  | u :: rest =>
    if u < 0xD800 ∨ 0xE000 ≤ u then
      (decodeUtf16 rest).map (fun cs => Char.ofNat u :: cs)
    else if u < 0xDC00 then
      match rest with
      | [] => none
      | v :: rest2 =>
        if 0xDC00 ≤ v ∧ v < 0xE000 then
          (decodeUtf16 rest2).map
            (fun cs => Char.ofNat (0x10000 + (u - 0xD800) * 0x400 + (v - 0xDC00)) :: cs)
        else none
    else none

/-- Split a character list at newline characters (`str::split('\n')`),
keeping every piece. -/
def splitNl : List Char → List Char → List (List Char)
  | [], acc => [acc.reverse]
  | c :: rest, acc =>
    if c = '\n' then acc.reverse :: splitNl rest [] else splitNl rest (c :: acc)

/-- Strip one trailing carriage return (`str::lines` strips a final `'\r'`
from each piece). -/
def stripCr (l : List Char) : List Char :=
  match l.getLast? with
  | some c => if c = '\r' then l.dropLast else l
  | none => l

/-- `str::lines`: split at `'\n'` (dropping the trailing empty piece produced
by a final terminator, as `split_terminator` does) and strip a final `'\r'`
from each line. -/
def rustLines (s : List Char) : List (List Char) :=
  let segs := splitNl s []
  let segs := match segs.getLast? with
    | some [] => segs.dropLast
    | _ => segs
  segs.map stripCr

/-- `check_wsl_distro` from `command.rs`: run `wsl -l -q`, return `false` if
the helper failed to run, reinterpret stdout as native-endian `u16`s, decode
as UTF-16 (`false` on decode failure), and test any line for literal equality
with `distro`.  The result is `none` exactly when the code panics (odd-length
stdout makes `bytes[1]` go out of bounds). -/
def check_wsl_distro (distro : String) (outcome : ProcOutcome) : Option Bool :=
  match outcome with
  | .err => some false
  | .ok _ stdout =>
    match bytesToU16 stdout with
    | none => none
    | some units =>
      match decodeUtf16 units with
      | none => some false
      | some chars => some ((rustLines chars).any (fun line => line == distro.data))

/-- A process descriptor as built through `StdCommand::new` / `TokioCommand::new`
plus `.arg` / `.args` calls: the executable and its ordered argument list. -/
structure Cmd where
  program : String
  args : List String
deriving DecidableEq, Repr

/-- `args.join(" ")` from Rust's `[String]::join`. -/
def joinSpace : List String → String
  | [] => ""
  | [a] => a
  | a :: rest => a ++ " " ++ joinSpace rest

/-- The character class `shlex::quote` treats as requiring quoting. -/
def shlexSpecial (c : Char) : Bool :=
  c = '|' || c = '&' || c = ';' || c = '<' || c = '>' || c = '(' || c = ')' ||
  c = '$' || c = '`' || c = '\\' || c = '"' || c = '\'' || c = ' ' || c = '\t' ||
  c = '\r' || c = '\n' || c = '*' || c = '?' || c = '[' || c = '#' || c = '~' ||
  c = '=' || c = '%'

/-- One character of `in_str.replace('\'', "'\\''")`. -/
def shlexEscChar (c : Char) : List Char :=
  if c = '\'' then ['\'', '\\', '\'', '\''] else [c]

/-- `shlex::quote`: empty string becomes `''`; a string containing a special
character is wrapped in single quotes with embedded quotes escaped; anything
else passes through unchanged. -/
def shlexQuote (s : String) : String :=
  if s.data = [] then "''"
  else if s.data.any shlexSpecial then
    ⟨'\'' :: (s.data.flatMap shlexEscChar ++ ['\''])⟩
  else s

/-- Outcome of the `which <bin>` probe run through the platform shell wrapper
in `platform_which`: it ran and succeeded (carrying the UTF-8-decoded, trimmed
stdout, i.e. the found path), it ran and reported failure, or it failed to run
at all. -/
inductive WhichOutcome where
  | ranFound (path : String)
  | ranNotFound
  | failed
deriving DecidableEq, Repr

/-- The environment the bridge reads: compile target, command-line settings
(`wsl`, `wsl_distro`, `neovim_bin`, `neovim_args`), environment variables
(`SHELL`, whether `TERM` is set), the native filesystem existence check, and
the outcomes of the helper subprocesses it may spawn. -/
structure Env where
  os : OS
  wsl : Bool
  wslDistro : Option String
  neovimBin : Option String
  neovimArgs : List String
  shellVar : Option String
  termSet : Bool
  pathExists : String → Bool
  existsProbe : ProcOutcome
  wslListProbe : ProcOutcome
  whichProbe : WhichOutcome
  whichCrate : Option String

/-- `create_platform_shell_command`: `Some` wrapped command on Windows with
`wsl` enabled or on macOS, `None` otherwise. -/
def create_platform_shell_command (env : Env) (command : String) (args : List String) :
    Option Cmd :=
  if env.os = OS.windows ∧ env.wsl then
    some { program := "wsl",
           args := ["$SHELL", "-lc", command ++ " " ++ joinSpace args] }
  else if env.os = OS.macos then
    let shell := env.shellVar.getD "/bin/sh"
    some { program := shell,
           args := (if env.termSet then [] else ["-l"]) ++
                   ["-c", command ++ " " ++ joinSpace args] }
  else none

/-- Result of `platform_exists`: either a boolean answer, or process
termination (`std::process::exit(code)`). -/
inductive ExistsResult where
  | result (b : Bool)
  | exit (code : Nat)
deriving DecidableEq, Repr

/-- The Windows variant of `platform_exists`: with `wsl` enabled the probe
`exists -x bin` is run through the shell wrapper and its status is the answer,
but a probe that fails to run is `error!` plus `std::process::exit(1)`;
without `wsl` the native `Path::exists` answers.  On other targets the
non-Windows variant always uses `Path::exists`. -/
def platform_exists (env : Env) (bin : String) : ExistsResult :=
  if env.os = OS.windows then
    if env.wsl then
      match env.existsProbe with
      | .ok success _ => .result success
      | .err => .exit 1
    else .result (env.pathExists bin)
  else .result (env.pathExists bin)

/-- `nvim_windows_cmd_impl`: wraps via the subsystem bridge.  A configured
distro is added as `-d <distro>` only when `check_wsl_distro` verifies it;
a failed verification only warns.  `none` propagates a panic from
`check_wsl_distro`. -/
def nvim_windows_cmd_impl (bin : String) (distro : Option String) (bin_args : List String)
    (probe : ProcOutcome) : Option Cmd :=
  let distroArgs : Option (List String) :=
    match distro with
    | some d =>
      match check_wsl_distro d probe with
      | none => none
      | some true => some ["-d", d]
      | some false => some []
    | none => some []
  distroArgs.map (fun dargs =>
    { program := "wsl",
      args := dargs ++ ["$SHELL", "-lc", bin ++ " " ++ joinSpace bin_args] })

/-- The macOS variant of `nvim_cmd_impl`: resolve the shell from `SHELL`
(default `/bin/sh`), `shlex::quote` each argument and join with spaces, add
`-l` when `TERM` is unset, then `-c "<bin> <args>"`. -/
def nvim_cmd_impl_macos (env : Env) (bin : String) (args : List String) : Cmd :=
  let shell := env.shellVar.getD "/bin/sh"
  let args_str := joinSpace (args.map shlexQuote)
  { program := shell,
    args := (if env.termSet then [] else ["-l"]) ++
            ["-c", bin ++ " " ++ args_str] }

/-- `nvim_cmd_impl`, merging the two `cfg`-selected variants: the macOS shell
wrapper on macOS; the subsystem wrapper on Windows with `wsl` enabled; and
otherwise the bare command with its arguments untouched. -/
def nvim_cmd_impl (env : Env) (bin : String) (args : List String) : Option Cmd :=
  if env.os = OS.macos then
    some (nvim_cmd_impl_macos env bin args)
  else if env.os = OS.windows ∧ env.wsl then
    nvim_windows_cmd_impl bin env.wslDistro args env.wslListProbe
  else
    some { program := bin, args := args }

/-- The base argument list of `build_nvim_cmd_with_args`:
`vec!["--embed"]` extended with the configured `neovim_args`. -/
def base_args (neovim_args : List String) : List String :=
  "--embed" :: neovim_args

/-- `build_nvim_cmd_with_args`: build the base argument list and hand it to
`nvim_cmd_impl`. -/
def build_nvim_cmd_with_args (env : Env) (bin : String) : Option Cmd :=
  nvim_cmd_impl env bin (base_args env.neovimArgs)

/-- Whether `create_platform_shell_command` produces a wrapped command on this
host (Windows with `wsl` enabled, or macOS). -/
def has_platform_shell_command (env : Env) : Bool :=
  (env.os == OS.windows && env.wsl) || env.os == OS.macos

/-- `platform_which`: on hosts with a platform shell command, run `which <bin>`
through it — success returns the trimmed stdout as the path, a reported
failure returns `none` outright, and only a probe that failed to run falls
back to the `which` crate.  Hosts without a platform command go straight to
the `which` crate, whose result is `env.whichCrate`. -/
def platform_which (env : Env) (_bin : String) : Option String :=
  if has_platform_shell_command env then
    match env.whichProbe with
    | .ranFound path => some path
    | .ranNotFound => none
    | .failed => env.whichCrate
  else env.whichCrate

/-- Result of `build_nvim_cmd`: a built command, a propagated panic, or
process termination via `std::process::exit`. -/
inductive BuildResult where
  | ok (c : Cmd)
  | panic
  | exit (code : Nat)
deriving DecidableEq, Repr

/-- Lift `nvim_cmd_impl`'s optional command into `BuildResult` (a `none`
was a panic inside command construction). -/
def liftCmd : Option Cmd → BuildResult
  | some c => .ok c
  | none => .panic

/-- The discovery tail of `build_nvim_cmd`: look up `nvim` via
`platform_which`; if nothing is found, `error!("nvim not found!")` and
`std::process::exit(1)`. -/
def build_nvim_cmd_discover (env : Env) : BuildResult :=
  match platform_which env "nvim" with
  | some path => liftCmd (build_nvim_cmd_with_args env path)
  | none => .exit 1

/-- `build_nvim_cmd`: an explicitly configured `neovim_bin` is used only when
`platform_exists` validates it; a failed validation warns and falls through to
discovery.  A probe `exit` inside `platform_exists` terminates the process. -/
def build_nvim_cmd (env : Env) : BuildResult :=
  match env.neovimBin with
  | some path =>
    match platform_exists env path with
    | .exit code => .exit code
    | .result true => liftCmd (build_nvim_cmd_with_args env path)
    | .result false => build_nvim_cmd_discover env
  | none => build_nvim_cmd_discover env

/-! ## Renderer bootstrap (`src/renderer/opengl.rs`) -/

/-- The `gl` crate's `MAX_RENDERBUFFER_SIZE` constant (`0x84E8`), used as the
upper clamp bound in `clamp_render_buffer_size`. -/
def MAX_RENDERBUFFER_SIZE : Nat := 0x84E8

/-- `winit::dpi::PhysicalSize<u32>`: a width/height pair. -/
structure PhysicalSize where
  width : Nat
  height : Nat
deriving DecidableEq, Repr

/-- Rust's `Ord::clamp(self, min, max)` for one `u32` axis with the bounds
used in `clamp_render_buffer_size`: `1` and `MAX_RENDERBUFFER_SIZE`. -/
def clampDim (x : Nat) : Nat :=
  if x < 1 then 1 else if x > MAX_RENDERBUFFER_SIZE then MAX_RENDERBUFFER_SIZE else x

/-- `clamp_render_buffer_size`: clamp each axis of the window-reported size
independently to `[1, MAX_RENDERBUFFER_SIZE]`. -/
def clamp_render_buffer_size (size : PhysicalSize) : PhysicalSize :=
  { width := clampDim size.width, height := clampDim size.height }

/-- `NonZeroU32::new`: `none` exactly on zero. -/
def nonZeroU32_new (x : Nat) : Option Nat :=
  if x = 0 then none else some x

/-- The surface-dimension step of `build_context`: clamp the window's size,
then convert both axes with `NonZeroU32::new(..).unwrap()` — `none` models
the `unwrap` panic on a zero dimension. -/
def build_context_surface_dims (windowSize : PhysicalSize) : Option (Nat × Nat) :=
  let size := clamp_render_buffer_size windowSize
  match nonZeroU32_new size.width, nonZeroU32_new size.height with
  | some w, some h => some (w, h)
  | _, _ => none

/-- `gen_config`: `config_iterator.next().unwrap()` — take the first
configuration the host windowing stack offers; `none` models the `unwrap`
panic on an empty candidate sequence. -/
def gen_config {α : Type} (config_iterator : List α) : Option α :=
  config_iterator.head?

/-! ## Helper lemmas and concrete environments -/

/-- A string of the form `a ++ " " ++ b` contains a space, so it can never
equal a string without one (such as a bare flag like `"-l"` or `"-d"`). -/
lemma append_space_ne (a b t : String) (ht : ' ' ∉ t.data) : a ++ " " ++ b ≠ t := by
  intro h
  apply ht
  rw [← h, String.data_append, String.data_append]
  have hsp : (" " : String).data = [' '] := rfl
  rw [hsp]
  simp

/-- A generic non-Windows, non-macOS environment used as a concrete witness
input. -/
def otherEnv : Env where
  os := OS.other
  wsl := false
  wslDistro := none
  neovimBin := none
  neovimArgs := []
  shellVar := none
  termSet := false
  pathExists := fun _ => false
  existsProbe := ProcOutcome.err
  wslListProbe := ProcOutcome.err
  whichProbe := WhichOutcome.failed
  whichCrate := none

/-- A Windows environment with subsystem bridging enabled, an explicitly
configured binary, an exists-probe that fails to run, and a discoverable
binary on `PATH`. -/
def winWslProbeFailEnv : Env where
  os := OS.windows
  wsl := true
  wslDistro := none
  neovimBin := some "/opt/nvim"
  neovimArgs := []
  shellVar := none
  termSet := true
  pathExists := fun _ => true
  existsProbe := ProcOutcome.err
  wslListProbe := ProcOutcome.err
  whichProbe := WhichOutcome.failed
  whichCrate := some "/usr/bin/nvim"

/-- A Windows environment with subsystem bridging enabled and a requested
distribution `Ubuntu` whose listing probe fails to run. -/
def winWslProbeFailEnv2 : Env where
  os := OS.windows
  wsl := true
  wslDistro := some "Ubuntu"
  neovimBin := none
  neovimArgs := []
  shellVar := none
  termSet := true
  pathExists := fun _ => false
  existsProbe := ProcOutcome.ok true []
  wslListProbe := ProcOutcome.err
  whichProbe := WhichOutcome.ranFound "nvim"
  whichCrate := none

/-- A macOS environment with `TERM` unset. -/
def macNoTermEnv : Env where
  os := OS.macos
  wsl := false
  wslDistro := none
  neovimBin := none
  neovimArgs := []
  shellVar := some "/bin/zsh"
  termSet := false
  pathExists := fun _ => false
  existsProbe := ProcOutcome.err
  wslListProbe := ProcOutcome.err
  whichProbe := WhichOutcome.failed
  whichCrate := none

/-- An environment where discovery is reached and finds nothing: no explicit
binary, the which probe reports not-found, and the `which` crate finds
nothing either. -/
def discoveryEmptyEnv : Env where
  os := OS.windows
  wsl := true
  wslDistro := none
  neovimBin := none
  neovimArgs := []
  shellVar := none
  termSet := true
  pathExists := fun _ => false
  existsProbe := ProcOutcome.err
  wslListProbe := ProcOutcome.err
  whichProbe := WhichOutcome.ranNotFound
  whichCrate := none

/-! ## Claim theorems -/

/-- Claim C1, code-bug evidence: `check_wsl_distro` is not total.  When the
listing subprocess succeeds but its stdout has an odd number of bytes (here a
single byte `0x61`), `chunks(2)` produces a final one-byte chunk and
`bytes[1]` panics with an index out of bounds (modelled as `none`) instead of
returning `false`; a plain failure to run the subprocess does return
`false`, and invalid UTF-16 (an unpaired surrogate) also returns `false`. -/
theorem check_wsl_distro_not_total_on_odd_stdout :
    check_wsl_distro "Ubuntu" (ProcOutcome.ok true [0x61]) = none ∧
    check_wsl_distro "Ubuntu" ProcOutcome.err = some false ∧
    check_wsl_distro "Ubuntu" (ProcOutcome.ok true [0x00, 0xD8]) = some false := by
  refine ⟨rfl, rfl, by decide⟩

/-- Claim C2, counterexample: in a Windows environment with subsystem
bridging enabled whose shell probe fails to run (`existsProbe = err`),
`platform_exists` does not answer `false`: it terminates the process with
exit code 1, and the whole of `build_nvim_cmd` therefore exits — even though
discovery (`whichCrate`) would have found a binary. -/
theorem platform_exists_probe_failure_fatal_cex :
    platform_exists winWslProbeFailEnv "/opt/nvim" = ExistsResult.exit 1 ∧
    platform_exists winWslProbeFailEnv "/opt/nvim" ≠ ExistsResult.result false ∧
    build_nvim_cmd winWslProbeFailEnv = BuildResult.exit 1 := by
  refine ⟨rfl, by decide, rfl⟩

/-- Claim C2, amended: on a Windows host with subsystem bridging enabled, a
shell probe that fails to run is fatal — `platform_exists` logs an error and
exits with code 1, and when this happens while validating an explicitly
configured binary, `build_nvim_cmd` terminates without falling through to
discovery.  Only a probe that actually ran reports a boolean answer (its
status), which on `false` sends `build_nvim_cmd` to discovery. -/
theorem platform_exists_probe_failure_exits (env : Env) (bin : String)
    (hos : env.os = OS.windows) (hwsl : env.wsl = true) :
    (env.existsProbe = ProcOutcome.err →
      platform_exists env bin = ExistsResult.exit 1 ∧
      (env.neovimBin = some bin → build_nvim_cmd env = BuildResult.exit 1)) ∧
    (∀ s out, env.existsProbe = ProcOutcome.ok s out →
      platform_exists env bin = ExistsResult.result s) ∧
    (env.neovimBin = some bin → platform_exists env bin = ExistsResult.result false →
      build_nvim_cmd env = build_nvim_cmd_discover env) := by
  refine ⟨fun hprobe => ?_, fun s out hprobe => ?_, fun hbin hres => ?_⟩
  · have hpe : platform_exists env bin = ExistsResult.exit 1 := by
      unfold platform_exists
      rw [if_pos hos, if_pos hwsl, hprobe]
    refine ⟨hpe, fun hbin => ?_⟩
    unfold build_nvim_cmd
    rw [hbin]
    simp [hpe]
  · unfold platform_exists
    rw [if_pos hos, if_pos hwsl, hprobe]
  · unfold build_nvim_cmd
    rw [hbin]
    simp [hres]

/-- Claim C2, witness for the amended theorem at a concrete environment. -/
theorem platform_exists_probe_failure_exits_witness :
    platform_exists winWslProbeFailEnv "/opt/nvim" = ExistsResult.exit 1 :=
  ((platform_exists_probe_failure_exits winWslProbeFailEnv "/opt/nvim" rfl rfl).1 rfl).1

/-- Claim C3: on a Windows host with subsystem bridging enabled, whenever the
configured distribution fails verification (`check_wsl_distro` answers
`false`, which covers both an absent distribution and a listing-probe
failure), the produced command is exactly the default-distribution wrapper —
executable `wsl` with arguments `["$SHELL", "-lc", "<bin> <args>"]` — so it
contains no `-d`/name selector pair, and construction succeeds (`some`,
neither panic nor termination). -/
theorem nvim_cmd_windows_failed_check_no_selector (env : Env) (bin : String)
    (args : List String) (d : String)
    (hos : env.os = OS.windows) (hwsl : env.wsl = true)
    (hd : env.wslDistro = some d)
    (hcheck : check_wsl_distro d env.wslListProbe = some false) :
    nvim_cmd_impl env bin args =
      some { program := "wsl",
             args := ["$SHELL", "-lc", bin ++ " " ++ joinSpace args] } ∧
    ∀ c, nvim_cmd_impl env bin args = some c → "-d" ∉ c.args := by
  have hmain : nvim_cmd_impl env bin args =
      some { program := "wsl",
             args := ["$SHELL", "-lc", bin ++ " " ++ joinSpace args] } := by
    unfold nvim_cmd_impl nvim_windows_cmd_impl
    rw [hos, hd]
    simp [hwsl, hcheck]
  refine ⟨hmain, fun c hc => ?_⟩
  rw [hmain] at hc
  cases Option.some.inj hc
  intro hmem
  rcases List.mem_cons.mp hmem with h1 | hmem
  · exact absurd h1 (by decide)
  rcases List.mem_cons.mp hmem with h2 | hmem
  · exact absurd h2 (by decide)
  rcases List.mem_cons.mp hmem with h3 | hmem
  · exact append_space_ne bin (joinSpace args) "-d" (by decide) h3.symm
  · exact List.not_mem_nil _ hmem

/-- Claim C3, witness: requested distro `Ubuntu`, probe fails to run, the
command is the default-distribution wrapper. -/
theorem nvim_cmd_windows_failed_check_no_selector_witness :
    nvim_cmd_impl winWslProbeFailEnv2 "nvim" ["--embed"] =
      some { program := "wsl", args := ["$SHELL", "-lc", "nvim --embed"] } := by
  have h := (nvim_cmd_windows_failed_check_no_selector winWslProbeFailEnv2 "nvim"
    ["--embed"] "Ubuntu" rfl rfl rfl rfl).1
  rw [h]
  rfl

/-- Claim C4: the base argument list handed to the wrapping step is exactly
the embedding flag `--embed` followed by the configured extra arguments in
their original order, and that same list is passed to `nvim_cmd_impl`
whatever the platform branch (`env.os`) is. -/
theorem base_args_embed_then_configured (env : Env) (bin : String) (A : List String) :
    base_args A = "--embed" :: A ∧
    (base_args A).head? = some "--embed" ∧
    (base_args A).tail = A ∧
    build_nvim_cmd_with_args env bin = nvim_cmd_impl env bin ("--embed" :: env.neovimArgs) :=
  ⟨rfl, rfl, rfl, rfl⟩

/-- Claim C5: `clamp_render_buffer_size` returns the per-axis clamp of the
window size to `[1, MAX_RENDERBUFFER_SIZE]`, clamping each axis
independently, and it is idempotent. -/
theorem clamp_render_buffer_size_spec (w h : Nat) :
    clamp_render_buffer_size ⟨w, h⟩ =
      ⟨min (max w 1) MAX_RENDERBUFFER_SIZE, min (max h 1) MAX_RENDERBUFFER_SIZE⟩ ∧
    clamp_render_buffer_size (clamp_render_buffer_size ⟨w, h⟩) =
      clamp_render_buffer_size ⟨w, h⟩ := by
  constructor
  · unfold clamp_render_buffer_size clampDim MAX_RENDERBUFFER_SIZE
    simp only [PhysicalSize.mk.injEq]
    constructor <;> (split_ifs <;> omega)
  · unfold clamp_render_buffer_size clampDim MAX_RENDERBUFFER_SIZE
    simp only [PhysicalSize.mk.injEq]
    constructor <;> (split_ifs <;> omega)

/-- Claim C6: on a host that is neither Windows-with-bridging nor macOS,
`nvim_cmd_impl` is the identity wrapping: the executable is the input binary
and the arguments pass through element-for-element, with no shell. -/
theorem nvim_cmd_impl_identity (env : Env) (bin : String) (args : List String)
    (hmac : env.os ≠ OS.macos) (hwin : ¬(env.os = OS.windows ∧ env.wsl = true)) :
    nvim_cmd_impl env bin args = some { program := bin, args := args } := by
  unfold nvim_cmd_impl
  rw [if_neg hmac, if_neg hwin]

/-- Claim C6, witness on a generic non-Windows, non-macOS host. -/
theorem nvim_cmd_impl_identity_witness :
    nvim_cmd_impl otherEnv "nvim" ["--embed", "file.txt"] =
      some { program := "nvim", args := ["--embed", "file.txt"] } :=
  nvim_cmd_impl_identity otherEnv "nvim" ["--embed", "file.txt"] (by decide) (by decide)

/-- Claim C7: on macOS `nvim_cmd_impl` defers to the macOS wrapper; with
`TERM` unset the wrapper's argument list is `-l`, then `-c`, then the payload
(the login flag present and before `-c`), and with `TERM` set it is `-c` and
the payload only, with no login flag anywhere in the list.  The
`create_platform_shell_command` probe wrapper places the login flag the same
way. -/
theorem nvim_cmd_impl_macos_login_flag (env : Env) (bin : String) (args : List String)
    (hos : env.os = OS.macos) :
    nvim_cmd_impl env bin args = some (nvim_cmd_impl_macos env bin args) ∧
    (env.termSet = false →
      (nvim_cmd_impl_macos env bin args).args =
        ["-l", "-c", bin ++ " " ++ joinSpace (args.map shlexQuote)] ∧
      create_platform_shell_command env bin args =
        some { program := env.shellVar.getD "/bin/sh",
               args := ["-l", "-c", bin ++ " " ++ joinSpace args] }) ∧
    (env.termSet = true →
      (nvim_cmd_impl_macos env bin args).args =
        ["-c", bin ++ " " ++ joinSpace (args.map shlexQuote)] ∧
      "-l" ∉ (nvim_cmd_impl_macos env bin args).args) := by
  refine ⟨?_, fun ht => ⟨?_, ?_⟩, fun ht => ⟨?_, ?_⟩⟩
  · unfold nvim_cmd_impl
    rw [if_pos hos]
  · unfold nvim_cmd_impl_macos
    rw [ht]
    simp
  · unfold create_platform_shell_command
    rw [hos, ht]
    simp
  · unfold nvim_cmd_impl_macos
    rw [ht]
    simp
  · unfold nvim_cmd_impl_macos
    rw [ht]
    simp only [Bool.false_eq_true, if_neg, List.nil_append]
    intro hmem
    rcases List.mem_cons.mp hmem with h1 | hmem
    · exact absurd h1 (by decide)
    rcases List.mem_cons.mp hmem with h2 | hmem
    · exact append_space_ne bin (joinSpace (args.map shlexQuote)) "-l" (by decide) h2.symm
    · exact List.not_mem_nil _ hmem

/-- Claim C7, witness: macOS with `TERM` unset — the login flag is first and
precedes `-c`. -/
theorem nvim_cmd_impl_macos_login_flag_witness :
    (nvim_cmd_impl_macos macNoTermEnv "nvim" ["file.txt"]).args =
      ["-l", "-c", "nvim file.txt"] := by
  have h := ((nvim_cmd_impl_macos_login_flag macNoTermEnv "nvim" ["file.txt"] rfl).2.1 rfl).1
  rw [h]
  rfl

/-- Claim C8: when resolution reaches discovery (no configured binary, or the
configured one failed validation with a boolean answer `false`) and discovery
finds nothing — the platform which-probe does not find a path and the
`which`-crate fallback is empty — `build_nvim_cmd` reports the error and
exits the process with code 1: no retry, no degraded result. -/
theorem build_nvim_cmd_discovery_empty_exits (env : Env)
    (hbin : env.neovimBin = none ∨
      ∃ p, env.neovimBin = some p ∧ platform_exists env p = ExistsResult.result false)
    (hprobe : ∀ p, env.whichProbe ≠ WhichOutcome.ranFound p)
    (hcrate : env.whichCrate = none) :
    build_nvim_cmd env = BuildResult.exit 1 := by
  have hwhich : platform_which env "nvim" = none := by
    unfold platform_which
    split_ifs with h
    · cases hp : env.whichProbe with
      | ranFound p => exact absurd hp (hprobe p)
      | ranNotFound => rfl
      | failed => exact hcrate
    · exact hcrate
  have hdisc : build_nvim_cmd_discover env = BuildResult.exit 1 := by
    unfold build_nvim_cmd_discover
    rw [hwhich]
  rcases hbin with h | ⟨p, hp, hres⟩
  · unfold build_nvim_cmd
    rw [h]
    exact hdisc
  · unfold build_nvim_cmd
    rw [hp]
    simp [hres, hdisc]

/-- Claim C8, witness: discovery reached with an empty yield — exit 1. -/
theorem build_nvim_cmd_discovery_empty_exits_witness :
    build_nvim_cmd discoveryEmptyEnv = BuildResult.exit 1 :=
  build_nvim_cmd_discovery_empty_exits discoveryEmptyEnv (Or.inl rfl)
    (fun _ h => by simp [discoveryEmptyEnv] at h) rfl

/-- Claim C9: `gen_config` deterministically selects exactly the first
configuration of the candidate sequence (no reordering or scoring), and on an
empty sequence it yields `none` — the `unwrap` panic, an unrecoverable
startup failure — rather than proceeding without a configuration. -/
theorem gen_config_first_or_fatal (α : Type) (c : α) (cs : List α) :
    gen_config (c :: cs) = some c ∧ gen_config ([] : List α) = none :=
  ⟨rfl, rfl⟩

/-- Claim C10: for every window-reported size the clamped dimensions are at
least 1 on each axis, so the `NonZeroU32::new(..).unwrap()` conversions in
`build_context` cannot fail: the surface-dimension step always yields
`some`. -/
theorem build_context_surface_dims_never_panics (w h : Nat) :
    1 ≤ (clamp_render_buffer_size ⟨w, h⟩).width ∧
    1 ≤ (clamp_render_buffer_size ⟨w, h⟩).height ∧
    build_context_surface_dims ⟨w, h⟩ = some (clampDim w, clampDim h) := by
  have hw : 1 ≤ clampDim w := by
    unfold clampDim MAX_RENDERBUFFER_SIZE
    split_ifs <;> omega
  have hh : 1 ≤ clampDim h := by
    unfold clampDim MAX_RENDERBUFFER_SIZE
    split_ifs <;> omega
  have hw0 : clampDim w ≠ 0 := by omega
  have hh0 : clampDim h ≠ 0 := by omega
  refine ⟨hw, hh, ?_⟩
  unfold build_context_surface_dims clamp_render_buffer_size nonZeroU32_new
  simp [hw0, hh0]

end Neovide
